import Mathlib

/-!
Shallow embedding of the Make It Count browser extension
(background service worker in background.js, content-script activity
reporter, and the dismissal-list logic), together with theorems checking
the specification's claims about the session timer, threshold
notification, session reset, dismissal list, activity reporting and
Substack detection.

JavaScript Sets are modelled as insertion-ordered duplicate-free lists,
Maps as association lists, and chrome.storage values (with their read
defaults applied) as fields of the background state.
-/

/-- Outbound messages the background script pushes to tabs via
chrome.tabs.sendMessage. -/
inductive OutMsg where
  | showToast (time : Nat)
  | resetToast
  | updateEnabled (enabled : Bool)
deriving Repr, DecidableEq

/-- Messages received by the background chrome.runtime.onMessage listener.
The tick constructor models the message of type "tick" that the
tick-loop content-script variant sends. -/
inductive Msg where
  | activity
  | getSettings
  | getSessionTime
  | queryTime
  | isDismissed (url : String)
  | dismiss (url : String)
  | toastDismissed
  | resetSession
  | resetArticle (url : Option String)
  | thresholdChanged (threshold : Nat)
  | enabledChanged (enabled : Bool)
  | tick
deriving Repr, DecidableEq

/-- Responses delivered through sendResponse. -/
inductive Resp where
  | settings (threshold : Nat) (enabled : Bool)
  | time (t : Nat)
  | dismissed (d : Bool)
  | ok
deriving Repr, DecidableEq

/-- JavaScript Set.add: append if not already present. -/
def setAdd (s : List Nat) (x : Nat) : List Nat :=
  if x ∈ s then s else s ++ [x]

/-- JavaScript Set.delete: remove the element. -/
def setDelete (s : List Nat) (x : Nat) : List Nat :=
  s.filter (fun y => y ≠ x)

/-- JavaScript Map.set on an association list: overwrite the binding if
the key is present, otherwise append it. -/
def mapSet (m : List (Nat × Nat)) (k v : Nat) : List (Nat × Nat) :=
  if m.any (fun p => p.1 = k) then
    m.map (fun p => if p.1 = k then (k, v) else p)
  else
    m ++ [(k, v)]

/-- JavaScript Map.delete on an association list. -/
def mapDelete (m : List (Nat × Nat)) (k : Nat) : List (Nat × Nat) :=
  m.filter (fun p => p.1 ≠ k)

/-- State of the background service worker: the three module-level
collections (injectedTabs, substackTabs, activeTabs), whether the tick
interval is installed, and the chrome.storage values it reads and
writes, with their declared read defaults applied (session storage:
sessionTime, toastDismissed; local storage: enabled, threshold,
dismissedArticles). -/
structure St where
  injectedTabs : List Nat
  substackTabs : List Nat
  activeTabs : List (Nat × Nat)
  tickerRunning : Bool
  sessionTime : Nat
  toastDismissed : Bool
  enabled : Bool
  threshold : Nat
  dismissedArticles : List String
deriving Repr, DecidableEq

/-- The activity test performed by the central ticker: some entry of
activeTabs has a timestamp within 62 000 ms of now (60 s content-script
timeout plus a 2 s buffer), with the strict comparison
now - lastActive < 62_000 of the source. -/
def anyActive (m : List (Nat × Nat)) (now : Nat) : Bool :=
  m.any (fun p => now - p.2 < 62000)

/-- Body of the setInterval callback installed by ensureTickerRunning:
return early if no tab has recent activity, then if the persisted
enabled flag is false; otherwise increment sessionTime, and when the
new time has reached the threshold and the toast has not been dismissed
this session, tell the focused tab to show the toast provided it is a
Substack tab. The returned Bool is the threshold-notification decision
newTime >= threshold && !toastDismissed. -/
def tickerStep (st : St) (now : Nat) (focusedTab : Option Nat) :
    St × Bool × List (Nat × OutMsg) :=
  if anyActive st.activeTabs now = false then (st, false, [])
  else if st.enabled = false then (st, false, [])
  else
    let newTime := st.sessionTime + 1
    let st2 := { st with sessionTime := newTime }
    let notify := decide (st.threshold ≤ newTime) && !st.toastDismissed
    let outs :=
      if notify then
        match focusedTab with
        | some t => if t ∈ st.substackTabs then [(t, OutMsg.showToast newTime)] else []
        | none => []
      else []
    (st2, notify, outs)

/-- checkSessionEnd: when no Substack tabs remain, zero the session
timer, clear the toast-dismissed flag and stop the ticker. -/
def checkSessionEnd (st : St) : St :=
  if st.substackTabs = [] then
    { st with sessionTime := 0, toastDismissed := false, tickerRunning := false }
  else st

/-- Shared body of the tabs.onRemoved listener and of the URL-change
branch of the tabs.onUpdated listener: drop the tab from injectedTabs,
substackTabs and activeTabs, then run checkSessionEnd. -/
def unregisterContext (st : St) (tabId : Nat) : St :=
  checkSessionEnd
    { st with
        injectedTabs := setDelete st.injectedTabs tabId
        substackTabs := setDelete st.substackTabs tabId
        activeTabs := mapDelete st.activeTabs tabId }

/-- Outcomes of the eight DOM probes run by detectSubstack, in source
order; none records a probe that threw (caught by the surrounding
try/catch). -/
structure PageProbes where
  metaSubstack : Option Bool
  scriptSubstackSrc : Option Bool
  linkSubstackHref : Option Bool
  linkSubstackCdn : Option Bool
  postHeaderSelector : Option Bool
  preloadsGlobal : Option Bool
  hostnameSubstack : Option Bool
  anchorSubstackHref : Option Bool
deriving Repr, DecidableEq

/-- The indicators array of detectSubstack, as the list of probe
outcomes. -/
def indicatorResults (p : PageProbes) : List (Option Bool) :=
  [p.metaSubstack, p.scriptSubstackSrc, p.linkSubstackHref, p.linkSubstackCdn,
   p.postHeaderSelector, p.preloadsGlobal, p.hostnameSubstack, p.anchorSubstackHref]

/-- The matches counter of detectSubstack: a probe that returns true
increments it; a false result or a thrown exception does not. -/
def countMatches (rs : List (Option Bool)) : Nat :=
  rs.foldl (fun m r => match r with | some true => m + 1 | _ => m) 0

/-- detectSubstack: at least two of the eight indicator probes
succeeded. -/
def detectSubstack (p : PageProbes) : Bool :=
  decide (2 ≤ countMatches (indicatorResults p))

/-- The completion branch of the tabs.onUpdated listener: require a /p/
article path, skip tabs already injected, run detectSubstack in the tab
(probes = none models a failed chrome.scripting.executeScript call,
caught by the catch), and on a positive result mark the tab injected,
add it to substackTabs and ensure the ticker is running. -/
def onTabComplete (st : St) (tabId : Nat) (urlHasPostPath : Bool)
    (probes : Option PageProbes) : St :=
  if urlHasPostPath = false then st
  else if tabId ∈ st.injectedTabs then st
  else
    match probes with
    | none => st
    | some p =>
      if detectSubstack p then
        { st with
            injectedTabs := setAdd st.injectedTabs tabId
            substackTabs := setAdd st.substackTabs tabId
            tickerRunning := true }
      else st

/-- The while (list.length > 100) list.shift() loop of the dismiss
handler: drop elements from the front until at most 100 remain. -/
def shiftWhile (l : List String) : List String :=
  if 100 < l.length then shiftWhile l.tail else l
termination_by l.length
decreasing_by
  rename_i h
  simp only [List.length_tail]
  omega

/-- Body of the dismiss message handler: remove any existing occurrence
of the URL, append it at the most-recent end, then evict from the front
while more than 100 entries remain. -/
def dismissStep (l : List String) (url : String) : List String :=
  shiftWhile ((l.filter (fun u => u ≠ url)) ++ [url])

/-- The chrome.runtime.onMessage listener of the background script.
Returns the new state, the response passed to sendResponse (none when
the listener never calls it), and the messages pushed to tabs. A
message of type "tick" matches no branch and falls through. -/
def handleMessage (st : St) (senderTab : Option Nat) (now : Nat) :
    Msg → St × Option Resp × List (Nat × OutMsg)
  | .activity =>
    match senderTab with
    | some id =>
      if id ≠ 0 then ({ st with activeTabs := mapSet st.activeTabs id now }, none, [])
      else (st, none, [])
    | none => (st, none, [])
  | .getSettings => (st, some (.settings st.threshold st.enabled), [])
  | .getSessionTime => (st, some (.time st.sessionTime), [])
  | .queryTime => (st, some (.time st.sessionTime), [])
  | .isDismissed url => (st, some (.dismissed (url ∈ st.dismissedArticles)), [])
  | .dismiss url =>
    ({ st with dismissedArticles := dismissStep st.dismissedArticles url }, some .ok, [])
  | .toastDismissed => ({ st with toastDismissed := true }, some .ok, [])
  | .resetSession =>
    ({ st with sessionTime := 0, toastDismissed := false }, some .ok,
     st.injectedTabs.map (fun id => (id, OutMsg.resetToast)))
  | .resetArticle url =>
    let st2 := { st with sessionTime := 0, toastDismissed := false }
    let st3 :=
      match url with
      | some u => { st2 with dismissedArticles := st2.dismissedArticles.filter (fun v => v ≠ u) }
      | none => st2
    (st3, some .ok, st.injectedTabs.map (fun id => (id, OutMsg.resetToast)))
  | .thresholdChanged _ => (st, some .ok, [])
  | .enabledChanged b =>
    (st, some .ok, st.injectedTabs.map (fun id => (id, OutMsg.updateEnabled b)))
  | .tick => (st, none, [])

/-- Run the central ticker for a sequence of wall-clock instants with no
focused tab, keeping only the state. -/
def tickerRun (st : St) (nows : List Nat) : St :=
  nows.foldl (fun s n => (tickerStep s n none).1) st

/-- Run the central ticker for a sequence of instants, collecting each
step's threshold-notification decision. -/
def tickerRunNotify (st : St) (nows : List Nat) : St × List Bool :=
  nows.foldl (fun acc n =>
    let r := tickerStep acc.1 n none
    (r.1, acc.2 ++ [r.2.1])) (st, [])

/-- Activity state of the content-script activity reporter (isActive):
extension enabled, document foreground-visible, and last input strictly
less than the 60 000 ms ACTIVITY_TIMEOUT ago. -/
def isActive (enabled visible : Bool) (now lastActivity : Nat) : Bool :=
  enabled && visible && decide (now - lastActivity < 60000)

/-- One step of the content script's 1-second reporter interval
(startActivityReporter): send a single activity message when active,
otherwise send nothing. -/
def reporterStep (enabled visible : Bool) (now lastActivity : Nat) : List Msg :=
  if isActive enabled visible now lastActivity then [Msg.activity] else []

/-- Concrete background state used in scenario proofs: one registered
Substack tab with a fresh activity timestamp, threshold 5 seconds,
extension enabled, counter at 0. -/
def demoState : St :=
  { injectedTabs := [1], substackTabs := [1], activeTabs := [(1, 0)],
    tickerRunning := true, sessionTime := 0, toastDismissed := false,
    enabled := true, threshold := 5, dismissedArticles := [] }

/-- Concrete background state with the extension disabled. -/
def demoOff : St :=
  { demoState with enabled := false }

theorem tickerStep_fst (st : St) (now : Nat) (f : Option Nat) :
    (tickerStep st now f).1 =
      if anyActive st.activeTabs now && st.enabled then
        { st with sessionTime := st.sessionTime + 1 }
      else st := by
  unfold tickerStep
  cases hA : anyActive st.activeTabs now <;> cases hE : st.enabled <;> simp [hA, hE]

theorem tickerStep_sessionTime (st : St) (now : Nat) (f : Option Nat) :
    (tickerStep st now f).1.sessionTime =
      if anyActive st.activeTabs now && st.enabled then st.sessionTime + 1
      else st.sessionTime := by
  rw [tickerStep_fst]
  split <;> rfl

theorem tickerStep_activeTabs (st : St) (now : Nat) (f : Option Nat) :
    (tickerStep st now f).1.activeTabs = st.activeTabs := by
  rw [tickerStep_fst]; split <;> rfl

theorem tickerStep_enabled (st : St) (now : Nat) (f : Option Nat) :
    (tickerStep st now f).1.enabled = st.enabled := by
  rw [tickerStep_fst]; split <;> rfl

theorem tickerStep_toastDismissed (st : St) (now : Nat) (f : Option Nat) :
    (tickerStep st now f).1.toastDismissed = st.toastDismissed := by
  rw [tickerStep_fst]; split <;> rfl

theorem tickerStep_notify (st : St) (now : Nat) (f : Option Nat)
    (hA : anyActive st.activeTabs now = true) (hE : st.enabled = true) :
    (tickerStep st now f).2.1 =
      (decide (st.threshold ≤ st.sessionTime + 1) && !st.toastDismissed) := by
  unfold tickerStep
  simp [hA, hE]

theorem tickerStep_disabled (st : St) (now : Nat) (f : Option Nat)
    (hE : st.enabled = false) : tickerStep st now f = (st, false, []) := by
  unfold tickerStep
  cases hA : anyActive st.activeTabs now <;> simp [hA, hE]

theorem tickerRun_sessionTime (nows : List Nat) (st : St) :
    (tickerRun st nows).sessionTime =
      st.sessionTime +
        (nows.filter (fun n => anyActive st.activeTabs n && st.enabled)).length := by
  induction nows generalizing st with
  | nil => simp [tickerRun]
  | cons n ns ih =>
    show (tickerRun (tickerStep st n none).1 ns).sessionTime = _
    rw [ih, tickerStep_activeTabs, tickerStep_enabled, tickerStep_sessionTime]
    cases h : (anyActive st.activeTabs n && st.enabled) <;>
      simp [List.filter_cons, h] <;> omega

/-- C1: a ticker step with the persisted enabled flag false leaves the
state unchanged and produces no notification, and over any sequence of
ticker steps the session counter grows by exactly the number of
accepted ticks (those with a recently active tab while enabled), so
starting from a reset counter it equals the count of accepted ticks. -/
theorem C1_tick_counter (st : St) :
    (st.enabled = false → ∀ (now : Nat) (f : Option Nat),
      tickerStep st now f = (st, false, [])) ∧
    (∀ nows : List Nat, (tickerRun st nows).sessionTime =
      st.sessionTime +
        (nows.filter (fun n => anyActive st.activeTabs n && st.enabled)).length) := by
  constructor
  · intro hE now f
    exact tickerStep_disabled st now f hE
  · intro nows
    exact tickerRun_sessionTime nows st

/-- Closed instance of C1_tick_counter: a disabled ticker step at a
concrete state is a no-op, and a concrete two-tick run counts both
accepted ticks. -/
theorem C1_tick_counter_witness :
    tickerStep demoOff 7 none = (demoOff, false, []) ∧
    (tickerRun demoState [0, 1]).sessionTime =
      demoState.sessionTime +
        (([0, 1] : List Nat).filter
          (fun n => anyActive demoState.activeTabs n && demoState.enabled)).length :=
  ⟨(C1_tick_counter demoOff).1 rfl 7 none, (C1_tick_counter demoState).2 [0, 1]⟩

/-- C2: on an accepted tick the threshold-notification decision is true
exactly when the incremented counter has reached the threshold (ties
inclusive) and the toast has not been dismissed this session; once the
toast is dismissed no tick notifies and the dismissal persists across
ticks; with threshold 5 the first six accepted ticks decide
false, false, false, false, true, true, a tick after acknowledgment
decides false, and an explicit reset clears the acknowledgment. -/
theorem C2_threshold_notification :
    (∀ (st : St) (now : Nat) (f : Option Nat),
      anyActive st.activeTabs now = true → st.enabled = true →
      ((tickerStep st now f).2.1 = true ↔
        st.threshold ≤ st.sessionTime + 1 ∧ st.toastDismissed = false)) ∧
    (∀ (st : St) (now : Nat) (f : Option Nat), st.toastDismissed = true →
      (tickerStep st now f).2.1 = false ∧
      (tickerStep st now f).1.toastDismissed = true) ∧
    (tickerRunNotify demoState [0, 0, 0, 0, 0, 0]).2 =
      [false, false, false, false, true, true] ∧
    (tickerStep
      (handleMessage (tickerRunNotify demoState [0, 0, 0, 0, 0, 0]).1
        none 0 .toastDismissed).1 0 none).2.1 = false ∧
    (handleMessage
      (handleMessage (tickerRunNotify demoState [0, 0, 0, 0, 0, 0]).1
        none 0 .toastDismissed).1 none 0 .resetSession).1.toastDismissed = false := by
  refine ⟨?_, ?_, by decide, by decide, by decide⟩
  · intro st now f hA hE
    rw [tickerStep_notify st now f hA hE]
    simp
  · intro st now f hD
    constructor
    · unfold tickerStep
      cases hA : anyActive st.activeTabs now <;> cases hE : st.enabled <;>
        simp [hA, hE, hD]
    · rw [tickerStep_toastDismissed]
      exact hD

/-- Closed instance of C2_threshold_notification: the decision
biconditional at the concrete demo state, and the no-notification
consequence at the acknowledged demo state. -/
theorem C2_threshold_notification_witness :
    ((tickerStep demoState 0 none).2.1 = true ↔
      demoState.threshold ≤ demoState.sessionTime + 1 ∧
        demoState.toastDismissed = false) ∧
    ((tickerStep { demoState with toastDismissed := true } 0 none).2.1 = false ∧
      (tickerStep { demoState with toastDismissed := true } 0 none).1.toastDismissed = true) :=
  ⟨C2_threshold_notification.1 demoState 0 none (by decide) rfl,
   C2_threshold_notification.2.1 { demoState with toastDismissed := true } 0 none rfl⟩

/-- C4 counterexample: at a concrete state, the background message
listener produces no response at all to a message of type tick, so a
tick message is not answered with the session time and threshold flag
that the claim describes. -/
theorem C4_tick_no_response :
    (handleMessage demoState (some 1) 0 .tick).2.1 = none := rfl

/-- C4 amended: a tick message matches no branch of the background
message listener; the state is unchanged, no response is sent, and no
message is pushed to any tab. -/
theorem C4_tick_unhandled (st : St) (senderTab : Option Nat) (now : Nat) :
    handleMessage st senderTab now .tick = (st, none, []) := rfl

/-- C3: unregistering a tab resets the session counter to 0 and the
toast-dismissed flag to false precisely when no Substack tab remains
afterwards; when other Substack tabs remain, the counter and the flag
are untouched. -/
theorem C3_last_unregister_resets (st : St) (tabId : Nat) :
    (setDelete st.substackTabs tabId = [] →
      (unregisterContext st tabId).sessionTime = 0 ∧
      (unregisterContext st tabId).toastDismissed = false) ∧
    (setDelete st.substackTabs tabId ≠ [] →
      (unregisterContext st tabId).sessionTime = st.sessionTime ∧
      (unregisterContext st tabId).toastDismissed = st.toastDismissed) := by
  unfold unregisterContext checkSessionEnd
  constructor
  · intro hEmpty
    simp only [hEmpty]
    simp
  · intro hNonempty
    simp only [hNonempty]
    simp

/-- Closed instance of C3_last_unregister_resets: removing the only
Substack tab of the demo state resets the counter, and removing an
absent tab while a tab remains changes nothing. -/
theorem C3_last_unregister_resets_witness :
    ((unregisterContext demoState 1).sessionTime = 0 ∧
      (unregisterContext demoState 1).toastDismissed = false) ∧
    ((unregisterContext demoState 2).sessionTime = demoState.sessionTime ∧
      (unregisterContext demoState 2).toastDismissed = demoState.toastDismissed) :=
  ⟨(C3_last_unregister_resets demoState 1).1 (by decide),
   (C3_last_unregister_resets demoState 2).2 (by decide)⟩

/-- C5: a ticker step advances the session counter by at most one
regardless of how many tabs are active, an activity report never
advances the counter itself, and when the extension is enabled and at
least one tab has recent activity the step advances the counter by
exactly one. -/
theorem C5_coalesced_ticks :
    (∀ (st : St) (now : Nat) (f : Option Nat),
      (tickerStep st now f).1.sessionTime ≤ st.sessionTime + 1) ∧
    (∀ (st : St) (id now : Nat),
      (handleMessage st (some id) now .activity).1.sessionTime = st.sessionTime) ∧
    (∀ (st : St) (now : Nat) (f : Option Nat),
      st.enabled = true → anyActive st.activeTabs now = true →
      (tickerStep st now f).1.sessionTime = st.sessionTime + 1) := by
  refine ⟨?_, ?_, ?_⟩
  · intro st now f
    rw [tickerStep_sessionTime]
    split <;> omega
  · intro st id now
    by_cases h : id = 0 <;> simp [handleMessage, h]
  · intro st now f hE hA
    rw [tickerStep_sessionTime, hA, hE]
    rfl

/-- Closed instance of C5_coalesced_ticks: the accepted-tick clause at
the concrete demo state advances the counter by exactly one. -/
theorem C5_coalesced_ticks_witness :
    (tickerStep demoState 0 none).1.sessionTime = demoState.sessionTime + 1 :=
  C5_coalesced_ticks.2.2 demoState 0 none rfl (by decide)

/-- C6: the resetSession handler zeroes the session counter, clears the
toast-dismissed flag, pushes a resetToast message to every injected
tab, and a subsequent accepted ticker step brings the counter to
exactly 1. -/
theorem C6_reset_roundtrip (st : St) (senderTab : Option Nat) (now : Nat) :
    (handleMessage st senderTab now .resetSession).1.sessionTime = 0 ∧
    (handleMessage st senderTab now .resetSession).1.toastDismissed = false ∧
    (handleMessage st senderTab now .resetSession).2.2 =
      st.injectedTabs.map (fun id => (id, OutMsg.resetToast)) ∧
    (∀ (n : Nat) (f : Option Nat),
      st.enabled = true → anyActive st.activeTabs n = true →
      (tickerStep (handleMessage st senderTab now .resetSession).1 n f).1.sessionTime = 1) := by
  refine ⟨rfl, rfl, rfl, ?_⟩
  intro n f hE hA
  rw [tickerStep_sessionTime]
  have h2 : (handleMessage st senderTab now .resetSession).1.activeTabs =
      st.activeTabs := rfl
  have h3 : (handleMessage st senderTab now .resetSession).1.enabled =
      st.enabled := rfl
  rw [h2, h3, hA, hE]
  rfl

/-- Closed instance of C6_reset_roundtrip at the concrete demo state:
reset yields counter 0 and one accepted tick then yields counter 1. -/
theorem C6_reset_roundtrip_witness :
    (handleMessage demoState none 0 .resetSession).1.sessionTime = 0 ∧
    (tickerStep (handleMessage demoState none 0 .resetSession).1 0 none).1.sessionTime = 1 :=
  ⟨(C6_reset_roundtrip demoState none 0).1,
   (C6_reset_roundtrip demoState none 0).2.2.2 0 none rfl (by decide)⟩

theorem shiftWhile_eq_drop (l : List String) :
    shiftWhile l = l.drop (l.length - 100) := by
  induction l with
  | nil => rw [shiftWhile]; simp
  | cons a t ih =>
    rw [shiftWhile]
    by_cases h : 100 < (a :: t).length
    · rw [if_pos h, List.tail_cons, ih]
      have h1 : (a :: t).length - 100 = (t.length - 100) + 1 := by
        simp only [List.length_cons] at h ⊢
        omega
      rw [h1, List.drop_succ_cons]
    · rw [if_neg h]
      have h1 : (a :: t).length - 100 = 0 := by
        simp only [List.length_cons] at h ⊢
        omega
      rw [h1, List.drop_zero]

theorem dismissStep_eq (l : List String) (url : String) :
    dismissStep l url =
      (l.filter (fun u => u ≠ url)).drop
        ((l.filter (fun u => u ≠ url)).length + 1 - 100) ++ [url] := by
  unfold dismissStep
  rw [shiftWhile_eq_drop]
  have hlen : ((l.filter (fun u => u ≠ url)) ++ [url]).length =
      (l.filter (fun u => u ≠ url)).length + 1 := by
    simp
  rw [hlen]
  have hk : (l.filter (fun u => u ≠ url)).length + 1 - 100 ≤
      (l.filter (fun u => u ≠ url)).length := by
    omega
  rw [List.drop_append_of_le_length hk]

theorem count_filter_self (l : List String) (url : String) :
    (l.filter (fun u => u ≠ url)).count url = 0 := by
  apply List.count_eq_zero.mpr
  intro hmem
  have h := List.mem_filter.mp hmem
  simp at h

/-- C7: one dismiss operation always leaves at most 100 entries, the
dismissed URL occurs exactly once and at the most-recent (last)
position, eviction removes oldest entries from the front of the list,
and any nonempty sequence of dismiss operations keeps the list within
100 entries. -/
theorem C7_dismiss_bounded (l : List String) (url : String) :
    (dismissStep l url).length ≤ 100 ∧
    (dismissStep l url).count url = 1 ∧
    (dismissStep l url).getLast? = some url ∧
    dismissStep l url =
      ((l.filter (fun u => u ≠ url)) ++ [url]).drop
        (((l.filter (fun u => u ≠ url)) ++ [url]).length - 100) ∧
    (∀ (urls : List String) (u0 : String),
      ((url :: urls).foldl dismissStep l).length ≤ 100 ∧
      (urls.foldl dismissStep [u0]).length ≤ 100) := by
  have hbound : ∀ (l2 : List String) (u : String), (dismissStep l2 u).length ≤ 100 := by
    intro l2 u
    rw [dismissStep_eq]
    simp only [List.length_append, List.length_drop, List.length_singleton]
    omega
  have hseq : ∀ (urls : List String) (l2 : List String),
      l2.length ≤ 100 → (urls.foldl dismissStep l2).length ≤ 100 := by
    intro urls
    induction urls with
    | nil => intro l2 h2; exact h2
    | cons u us ih =>
      intro l2 _
      exact ih (dismissStep l2 u) (hbound l2 u)
  refine ⟨hbound l url, ?_, ?_, ?_, ?_⟩
  · rw [dismissStep_eq, List.count_append]
    have h0 : ((l.filter (fun u => u ≠ url)).drop
        ((l.filter (fun u => u ≠ url)).length + 1 - 100)).count url = 0 := by
      have hle := (List.drop_sublist
        ((l.filter (fun u => u ≠ url)).length + 1 - 100)
        (l.filter (fun u => u ≠ url))).count_le url
      rw [count_filter_self] at hle
      omega
    rw [h0]
    simp
  · rw [dismissStep_eq]
    exact List.getLast?_concat _
  · unfold dismissStep
    exact shiftWhile_eq_drop _
  · intro urls u0
    constructor
    · exact hseq urls (dismissStep l url) (hbound l url)
    · have h1 : ([u0] : List String).length ≤ 100 := by simp
      exact hseq urls [u0] h1

/-- C8: the activity reporter emits its report exactly when the
extension is enabled, the document is foreground-visible, and the last
input signal is strictly less than 60 000 ms old; once 60 seconds have
elapsed without input it emits nothing, and a step never emits more
than the single current report (nothing queued or replayed). -/
theorem C8_reporter_active_iff (e v : Bool) (now la : Nat) :
    (reporterStep e v now la = [Msg.activity] ↔
      e = true ∧ v = true ∧ now - la < 60000) ∧
    (60000 ≤ now - la → reporterStep e v now la = []) ∧
    (reporterStep e v now la = [Msg.activity] ∨ reporterStep e v now la = []) := by
  refine ⟨?_, ?_, ?_⟩
  · unfold reporterStep isActive
    cases e <;> cases v <;> by_cases h : now - la < 60000 <;> simp [h]
  · intro h
    unfold reporterStep isActive
    have h2 : ¬(now - la < 60000) := by omega
    cases e <;> cases v <;> simp [h2]
  · unfold reporterStep
    by_cases h : isActive e v now la = true <;> simp [h]

/-- Closed instance of C8_reporter_active_iff: an enabled, visible
reporter with fresh input emits, and one whose input is exactly 60
seconds old emits nothing. -/
theorem C8_reporter_active_iff_witness :
    (reporterStep true true 5 0 = [Msg.activity] ↔
      true = true ∧ true = true ∧ 5 - 0 < 60000) ∧
    reporterStep true true 60000 0 = [] :=
  ⟨(C8_reporter_active_iff true true 5 0).1,
   (C8_reporter_active_iff true true 60000 0).2.1 (by decide)⟩

/-- C9: the Substack detection check succeeds exactly when at least two
of the eight indicator probes succeed, fewer than two matches make it
fail, and a tab enters the participating set only when it was already
there or its probes produced at least two matches. -/
theorem C9_two_signal_detection (p : PageProbes) (st : St) (tabId : Nat)
    (urlHasPostPath : Bool) (probes : Option PageProbes) :
    (detectSubstack p = true ↔ 2 ≤ countMatches (indicatorResults p)) ∧
    (countMatches (indicatorResults p) < 2 → detectSubstack p = false) ∧
    (tabId ∈ (onTabComplete st tabId urlHasPostPath probes).substackTabs →
      tabId ∈ st.substackTabs ∨
        ∃ q, probes = some q ∧ detectSubstack q = true ∧
          2 ≤ countMatches (indicatorResults q)) := by
  refine ⟨by simp [detectSubstack], ?_, ?_⟩
  · intro h
    simp [detectSubstack]
    omega
  · intro hmem
    unfold onTabComplete at hmem
    by_cases h1 : urlHasPostPath = false
    · rw [if_pos h1] at hmem
      exact Or.inl hmem
    · rw [if_neg h1] at hmem
      by_cases h2 : tabId ∈ st.injectedTabs
      · rw [if_pos h2] at hmem
        exact Or.inl hmem
      · rw [if_neg h2] at hmem
        cases probes with
        | none => exact Or.inl hmem
        | some q =>
          by_cases h3 : detectSubstack q = true
          · refine Or.inr ⟨q, rfl, h3, ?_⟩
            have := (by simp [detectSubstack] :
              (detectSubstack q = true ↔ 2 ≤ countMatches (indicatorResults q)))
            exact this.mp h3
          · simp only [h3] at hmem
            simp at hmem
            exact Or.inl hmem

/-- Concrete probe outcomes with exactly two successes (hostname and a
page marker); the remaining probes fail or throw. -/
def demoProbes : PageProbes :=
  { metaSubstack := some false, scriptSubstackSrc := none,
    linkSubstackHref := some false, linkSubstackCdn := some false,
    postHeaderSelector := some true, preloadsGlobal := none,
    hostnameSubstack := some true, anchorSubstackHref := some false }

/-- Concrete probe outcomes with a single success. -/
def demoProbesOne : PageProbes :=
  { demoProbes with postHeaderSelector := some false }

/-- Closed instance of C9_two_signal_detection: two matches are
detected, one match is rejected, and a freshly registered tab is
explained by its two matches. -/
theorem C9_two_signal_detection_witness :
    (detectSubstack demoProbes = true ↔
      2 ≤ countMatches (indicatorResults demoProbes)) ∧
    detectSubstack demoProbesOne = false ∧
    (2 ∈ demoState.substackTabs ∨
      ∃ q, (some demoProbes : Option PageProbes) = some q ∧
        detectSubstack q = true ∧ 2 ≤ countMatches (indicatorResults q)) :=
  ⟨(C9_two_signal_detection demoProbes demoState 2 true (some demoProbes)).1,
   (C9_two_signal_detection demoProbesOne demoState 2 true (some demoProbesOne)).2.1
     (by decide),
   (C9_two_signal_detection demoProbes demoState 2 true (some demoProbes)).2.2
     (by decide)⟩

/-- C10: the central ticker counts a second as active exactly when some
entry of activeTabs carries a timestamp strictly within 62 000 ms of
now (the 60-second reporter timeout plus a 2-second buffer); while
enabled, the counter advances in a step exactly under that condition;
and an activity report from a tab stamps that tab with the current
time. -/
theorem C10_grace_window (st : St) (now : Nat) (f : Option Nat) (id n : Nat) :
    (anyActive st.activeTabs now = true ↔
      ∃ p ∈ st.activeTabs, now - p.2 < 62000) ∧
    (st.enabled = true →
      (st.sessionTime < (tickerStep st now f).1.sessionTime ↔
        anyActive st.activeTabs now = true)) ∧
    (id ≠ 0 →
      (handleMessage st (some id) n .activity).1.activeTabs =
        mapSet st.activeTabs id n) := by
  refine ⟨?_, ?_, ?_⟩
  · unfold anyActive
    simp
  · intro hE
    rw [tickerStep_sessionTime, hE]
    cases hA : anyActive st.activeTabs now <;> simp [hA]
  · intro h
    simp [handleMessage, h]

/-- Closed instance of C10_grace_window: at the demo state the activity
test holds via the concrete entry, an enabled step advances the
counter, and an activity report restamps the tab. -/
theorem C10_grace_window_witness :
    (anyActive demoState.activeTabs 0 = true ↔
      ∃ p ∈ demoState.activeTabs, 0 - p.2 < 62000) ∧
    (demoState.sessionTime < (tickerStep demoState 0 none).1.sessionTime ↔
      anyActive demoState.activeTabs 0 = true) ∧
    (handleMessage demoState (some 1) 9 .activity).1.activeTabs =
      mapSet demoState.activeTabs 1 9 :=
  ⟨(C10_grace_window demoState 0 none 1 9).1,
   (C10_grace_window demoState 0 none 1 9).2.1 rfl,
   (C10_grace_window demoState 0 none 1 9).2.2 (by decide)⟩
